import Mathlib

/-!
Verification of the YouTube analytics dashboard (`yt_dashboard.py`).

The development shallowly embeds the parts of the script that carry logic:
the daily-stats recorder `save_daily_stats`, the per-video statistics
extraction `get_video_stats`, the top-10-by-views selection, the trend
chart data, the playlist-items fetch used to build the candidate video-id
set, and the startup / error-handling structure of the top-level script.

Python integers are modelled as `Int` (arbitrary precision), the CSV log
file as `Option (List DailyRecord)` (`none` = file absent, `some rows` =
file present with the given data rows under the fixed header), and raised
exceptions as `Option`/explicit error values.
-/

/-- One data row of `channel_history.csv`: the columns
`date, subscribers, views, videos` written by `save_daily_stats`. -/
structure DailyRecord where
  date : String
  subscribers : Int
  views : Int
  videos : Int
deriving DecidableEq, Repr

/-- The state of the backing log file: `none` when the file does not
exist, `some rows` when it exists and parses to the given data rows. -/
abbrev LogFile := Option (List DailyRecord)

/-- Lines 141-144 of `yt_dashboard.py`: `pd.read_csv(file)` when the file
exists, otherwise a fresh empty frame with columns
`date, subscribers, views, videos`. -/
def read_log : LogFile → List DailyRecord
  | some df => df
  | none => []

/-- Lines 136-151 of `yt_dashboard.py` (`save_daily_stats`), with the
wall-clock date injected as the explicit argument `today`.  Returns the
resulting file state together with a flag recording whether a write
(`df.to_csv`) was performed. -/
def save_daily_stats (subs views videos : Int) (today : String) (file : LogFile) :
    LogFile × Bool :=
  let df := read_log file
  if today ∈ df.map DailyRecord.date then (file, false)
  else (some (df ++ [⟨today, subs, views, videos⟩]), true)

/-- A sequence of same-day `save_daily_stats` calls, each with its own
`(subscribers, views, videos)` counts, applied left to right. -/
def runSameDay (today : String) (calls : List (Int × Int × Int)) (file : LogFile) : LogFile :=
  calls.foldl (fun f c => (save_daily_stats c.1 c.2.1 c.2.2 today f).1) file

/-- The header row `pandas` writes for the frame built in
`save_daily_stats`. -/
def csvHeader : String := "date,subscribers,views,videos"

/-- Serialization of one data row by `df.to_csv(file, index=False)`. -/
def recordToCsvRow (r : DailyRecord) : String :=
  r.date ++ "," ++ toString r.subscribers ++ "," ++ toString r.views ++ "," ++ toString r.videos

/-- Serialization of the whole frame by `df.to_csv(file, index=False)`:
the header line followed by one line per data row. -/
def to_csv (df : List DailyRecord) : List String :=
  csvHeader :: df.map recordToCsvRow

-- Helper lemmas about the recorder.

theorem save_daily_stats_mem (s v n : Int) (today : String) (file : LogFile)
    (h : today ∈ (read_log file).map DailyRecord.date) :
    save_daily_stats s v n today file = (file, false) := by
  simp [save_daily_stats, h]

theorem save_daily_stats_not_mem (s v n : Int) (today : String) (file : LogFile)
    (h : today ∉ (read_log file).map DailyRecord.date) :
    save_daily_stats s v n today file = (some (read_log file ++ [⟨today, s, v, n⟩]), true) := by
  simp [save_daily_stats, h]

theorem runSameDay_mem (today : String) (calls : List (Int × Int × Int)) (file : LogFile)
    (h : today ∈ (read_log file).map DailyRecord.date) :
    runSameDay today calls file = file := by
  induction calls with
  | nil => rfl
  | cons c cs ih =>
      show runSameDay today cs (save_daily_stats c.1 c.2.1 c.2.2 today file).1 = file
      rw [save_daily_stats_mem c.1 c.2.1 c.2.2 today file h]
      exact ih

theorem countP_date_eq_zero (today : String) (l : List DailyRecord)
    (h : today ∉ l.map DailyRecord.date) :
    l.countP (fun r => r.date == today) = 0 := by
  rw [List.countP_eq_zero]
  intro r hr
  simp only [beq_iff_eq]
  intro hd
  exact h (List.mem_map.mpr ⟨r, hr, hd⟩)

/-- C1: every nonempty sequence of same-day `save_daily_stats` calls, with
identical or varying counts, leaves the log with exactly one record whose
date is that day, provided the day was not already recorded. -/
theorem save_daily_stats_same_day_once (today : String) (calls : List (Int × Int × Int))
    (file : LogFile) (hne : calls ≠ [])
    (h : today ∉ (read_log file).map DailyRecord.date) :
    (read_log (runSameDay today calls file)).countP (fun r => r.date == today) = 1 := by
  match calls with
  | [] => exact absurd rfl hne
  | c :: cs =>
      have hstep : runSameDay today (c :: cs) file
          = runSameDay today cs (save_daily_stats c.1 c.2.1 c.2.2 today file).1 := rfl
      rw [hstep, save_daily_stats_not_mem c.1 c.2.1 c.2.2 today file h]
      have hmem : today ∈ (read_log (some (read_log file
          ++ [⟨today, c.1, c.2.1, c.2.2⟩]))).map DailyRecord.date := by
        simp [read_log]
      rw [runSameDay_mem today cs _ hmem]
      show (read_log file ++ [DailyRecord.mk today c.1 c.2.1 c.2.2]).countP
        (fun r : DailyRecord => r.date == today) = 1
      rw [List.countP_append, countP_date_eq_zero today (read_log file) h]
      simp [List.countP_cons]

/-- C1 witness: two calls on 2024-01-01 starting from an absent file leave
exactly one record for that date. -/
theorem save_daily_stats_same_day_once_witness :
    (read_log (runSameDay "2024-01-01" [(100, 5000, 10), (200, 6000, 11)] none)).countP
      (fun r => r.date == "2024-01-01") = 1 :=
  save_daily_stats_same_day_once "2024-01-01" [(100, 5000, 10), (200, 6000, 11)] none
    (by decide) (by decide)

/-- C2: when the log already holds a row for today, a call with any counts
returns the file unchanged and reports that no write was performed. -/
theorem save_daily_stats_frame (s v n : Int) (today : String) (file : LogFile)
    (h : today ∈ (read_log file).map DailyRecord.date) :
    save_daily_stats s v n today file = (file, false) :=
  save_daily_stats_mem s v n today file h

/-- C2 witness: a second call on 2024-01-01 with different counts leaves the
one-row log for 2024-01-01 unchanged, with no write. -/
theorem save_daily_stats_frame_witness :
    save_daily_stats 200 9999 11 "2024-01-01" (some [⟨"2024-01-01", 100, 5000, 10⟩])
      = (some [⟨"2024-01-01", 100, 5000, 10⟩], false) :=
  save_daily_stats_frame 200 9999 11 "2024-01-01" (some [⟨"2024-01-01", 100, 5000, 10⟩])
    (by decide)

/-- C3: calls on two distinct unrecorded days append exactly one record per
day at the end of the log, leaving every prior record in place unmodified. -/
theorem save_daily_stats_two_days (d1 d2 : String) (s1 v1 n1 s2 v2 n2 : Int) (file : LogFile)
    (hne : d1 ≠ d2)
    (h1 : d1 ∉ (read_log file).map DailyRecord.date)
    (h2 : d2 ∉ (read_log file).map DailyRecord.date) :
    read_log (save_daily_stats s2 v2 n2 d2 (save_daily_stats s1 v1 n1 d1 file).1).1
      = read_log file ++ [⟨d1, s1, v1, n1⟩, ⟨d2, s2, v2, n2⟩] := by
  rw [save_daily_stats_not_mem s1 v1 n1 d1 file h1]
  have h2' : d2 ∉ (read_log (some (read_log file
      ++ [⟨d1, s1, v1, n1⟩]))).map DailyRecord.date := by
    simp only [read_log, List.map_append, List.mem_append]
    rintro (hl | hr)
    · exact h2 hl
    · simp only [List.map_cons, List.map_nil, List.mem_singleton] at hr
      exact hne hr.symm
  rw [save_daily_stats_not_mem s2 v2 n2 d2 _ h2']
  simp [read_log]

/-- C3 witness: starting from an absent file, recording 2024-01-01 and then
2024-01-02 yields exactly those two records in order. -/
theorem save_daily_stats_two_days_witness :
    read_log (save_daily_stats 200 6000 11 "2024-01-02"
        (save_daily_stats 100 5000 10 "2024-01-01" none).1).1
      = [⟨"2024-01-01", 100, 5000, 10⟩, ⟨"2024-01-02", 200, 6000, 11⟩] :=
  save_daily_stats_two_days "2024-01-01" "2024-01-02" 100 5000 10 200 6000 11 none
    (by decide) (by decide) (by decide)

/-- C4: from an empty or absent log, a call with subscribers = 100,
views = 5000, videos = 10 on date 2024-01-01 produces a log with exactly
the data row `2024-01-01,100,5000,10` under the header
`date,subscribers,views,videos`. -/
theorem save_daily_stats_first_write (file : LogFile) (h : read_log file = []) :
    read_log (save_daily_stats 100 5000 10 "2024-01-01" file).1
        = [⟨"2024-01-01", 100, 5000, 10⟩] ∧
      to_csv (read_log (save_daily_stats 100 5000 10 "2024-01-01" file).1)
        = ["date,subscribers,views,videos", "2024-01-01,100,5000,10"] := by
  have hnm : "2024-01-01" ∉ (read_log file).map DailyRecord.date := by
    rw [h]; simp
  rw [save_daily_stats_not_mem 100 5000 10 "2024-01-01" file hnm, h]
  constructor
  · rfl
  · rfl

/-- C4 witness: the first-write theorem applied to the absent file. -/
theorem save_daily_stats_first_write_witness :
    read_log (save_daily_stats 100 5000 10 "2024-01-01" none).1
        = [⟨"2024-01-01", 100, 5000, 10⟩] ∧
      to_csv (read_log (save_daily_stats 100 5000 10 "2024-01-01" none).1)
        = ["date,subscribers,views,videos", "2024-01-01,100,5000,10"] :=
  save_daily_stats_first_write none rfl

/-- The `statistics` object of one item of a `videos().list` response.
The platform serialises the counts as decimal strings; a field may be
absent (e.g. hidden like counts). -/
structure VideoStatisticsObj where
  viewCount : Option String
  likeCount : Option String
  commentCount : Option String
deriving DecidableEq, Repr

/-- One item of a `videos().list(part="snippet,statistics")` response. -/
structure VideoItem where
  title : String
  statistics : VideoStatisticsObj
deriving DecidableEq, Repr

/-- One row built by `get_video_stats` (and consumed by `df_videos`). -/
structure VideoRow where
  title : String
  views : Int
  likes : Int
  comments : Int
deriving DecidableEq, Repr

/-- Python `int(stats.get(key, 0))`: the default `0` maps to `int(0) = 0`;
a present string is parsed as a decimal integer, raising (here `none`) on
a malformed string. -/
def pyIntOfGet (field : Option String) : Option Int :=
  match field with
  | none => some 0
  | some s => s.toInt?

/-- The loop body of `get_video_stats` (lines 123-130 of
`yt_dashboard.py`) for a single response item. -/
def statRow (it : VideoItem) : Option VideoRow :=
  match pyIntOfGet it.statistics.viewCount, pyIntOfGet it.statistics.likeCount,
      pyIntOfGet it.statistics.commentCount with
  | some v, some l, some c => some ⟨it.title, v, l, c⟩
  | _, _, _ => none

/-- Lines 116-131 of `yt_dashboard.py` (`get_video_stats`), applied to the
already-received response items: builds one row per item in order; a
failing `int(...)` conversion raises, aborting the whole call. -/
def get_video_stats : List VideoItem → Option (List VideoRow)
  | [] => some []
  | it :: rest =>
    match statRow it, get_video_stats rest with
    | some row, some rows => some (row :: rows)
    | _, _ => none

theorem statRow_some (it : VideoItem) (row : VideoRow) (h : statRow it = some row) :
    pyIntOfGet it.statistics.viewCount = some row.views ∧
    pyIntOfGet it.statistics.likeCount = some row.likes ∧
    pyIntOfGet it.statistics.commentCount = some row.comments := by
  unfold statRow at h
  cases hv : pyIntOfGet it.statistics.viewCount with
  | none => rw [hv] at h; exact absurd h (by simp)
  | some v =>
      cases hl : pyIntOfGet it.statistics.likeCount with
      | none => rw [hv, hl] at h; exact absurd h (by simp)
      | some l =>
          cases hc : pyIntOfGet it.statistics.commentCount with
          | none => rw [hv, hl, hc] at h; exact absurd h (by simp)
          | some c =>
              rw [hv, hl, hc] at h
              simp only [Option.some.injEq] at h
              rw [← h]
              exact ⟨rfl, rfl, rfl⟩

theorem get_video_stats_zip (items : List VideoItem) (rows : List VideoRow)
    (h : get_video_stats items = some rows) :
    ∀ p ∈ items.zip rows,
      (p.1.statistics.viewCount = none → p.2.views = 0) ∧
      (p.1.statistics.likeCount = none → p.2.likes = 0) ∧
      (p.1.statistics.commentCount = none → p.2.comments = 0) := by
  induction items generalizing rows with
  | nil =>
      intro p hp
      simp [List.zip] at hp
  | cons it rest ih =>
      intro p hp
      unfold get_video_stats at h
      cases hrow : statRow it with
      | none => rw [hrow] at h; exact absurd h (by simp)
      | some row =>
          rw [hrow] at h
          cases hrest : get_video_stats rest with
          | none => rw [hrest] at h; exact absurd h (by simp)
          | some rs =>
              rw [hrest] at h
              simp only [Option.some.injEq] at h
              subst h
              rw [List.zip_cons_cons] at hp
              rcases List.mem_cons.mp hp with hhead | htail
              · subst hhead
                obtain ⟨hv, hl, hc⟩ := statRow_some it row hrow
                refine ⟨?_, ?_, ?_⟩
                · intro habs
                  rw [habs] at hv
                  simp only [pyIntOfGet, Option.some.injEq] at hv
                  exact hv.symm
                · intro habs
                  rw [habs] at hl
                  simp only [pyIntOfGet, Option.some.injEq] at hl
                  exact hl.symm
                · intro habs
                  rw [habs] at hc
                  simp only [pyIntOfGet, Option.some.injEq] at hc
                  exact hc.symm
              · exact ih rs hrest p htail

theorem get_video_stats_all_absent (items : List VideoItem)
    (h : ∀ it ∈ items, it.statistics = ⟨none, none, none⟩) :
    get_video_stats items
      = some (items.map (fun it => ⟨it.title, 0, 0, 0⟩)) := by
  induction items with
  | nil => rfl
  | cons it rest ih =>
      have hit : it.statistics = ⟨none, none, none⟩ := h it (List.mem_cons_self it rest)
      have hrest := ih (fun x hx => h x (List.mem_cons_of_mem it hx))
      unfold get_video_stats
      rw [hrest]
      unfold statRow
      rw [hit]
      rfl

/-- C10: whenever `get_video_stats` succeeds, every item whose
`viewCount`, `likeCount` or `commentCount` field is absent yields `0` for
the corresponding count in its row; and items with all three fields absent
never make the call fail (each such item yields the row
`(title, 0, 0, 0)`).  All counts are integers by construction
(`VideoRow` stores `Int`). -/
theorem get_video_stats_missing_defaults :
    (∀ (items : List VideoItem) (rows : List VideoRow),
      get_video_stats items = some rows →
      ∀ p ∈ items.zip rows,
        (p.1.statistics.viewCount = none → p.2.views = 0) ∧
        (p.1.statistics.likeCount = none → p.2.likes = 0) ∧
        (p.1.statistics.commentCount = none → p.2.comments = 0)) ∧
    (∀ items : List VideoItem,
      (∀ it ∈ items, it.statistics = ⟨none, none, none⟩) →
      get_video_stats items
        = some (items.map (fun it => ⟨it.title, 0, 0, 0⟩))) :=
  ⟨get_video_stats_zip, get_video_stats_all_absent⟩

/-- C10 witness: a concrete item with all three count fields absent:
the call succeeds and each count of its row is `0`. -/
theorem get_video_stats_missing_defaults_witness :
    ((VideoItem.mk "a" ⟨none, none, none⟩,
        VideoRow.mk "a" 0 0 0).2.views = 0 ∧
      (VideoItem.mk "a" ⟨none, none, none⟩,
        VideoRow.mk "a" 0 0 0).2.likes = 0 ∧
      (VideoItem.mk "a" ⟨none, none, none⟩,
        VideoRow.mk "a" 0 0 0).2.comments = 0) ∧
    get_video_stats [VideoItem.mk "b" ⟨none, none, none⟩]
      = some [VideoRow.mk "b" 0 0 0] := by
  constructor
  · have hz := get_video_stats_missing_defaults.1
      [VideoItem.mk "a" ⟨none, none, none⟩] [VideoRow.mk "a" 0 0 0]
      (by decide)
      (VideoItem.mk "a" ⟨none, none, none⟩, VideoRow.mk "a" 0 0 0)
      (by decide)
    exact ⟨hz.1 rfl, hz.2.1 rfl, hz.2.2 rfl⟩
  · exact get_video_stats_missing_defaults.2 [VideoItem.mk "b" ⟨none, none, none⟩]
      (by decide)

/-- One item of a `playlistItems().list(part="contentDetails")` response. -/
structure PlaylistItem where
  videoId : String
deriving DecidableEq, Repr

/-- The platform call
`youtube.playlistItems().list(playlistId=..., maxResults=n)`: the uploads
playlist lists the channel's uploads most recent first, and the call
returns at most the first `maxResults` of them (no pagination is
requested by the dashboard). -/
def playlistItems_list (playlist : List PlaylistItem) (maxResults : Nat) : List PlaylistItem :=
  playlist.take maxResults

/-- Lines 237-243 of `yt_dashboard.py`: the video-id list built from the
`maxResults=20` playlist-items response and passed to `get_video_stats`. -/
def dashboard_video_ids (uploads : List PlaylistItem) : List String :=
  (playlistItems_list uploads 20).map PlaylistItem.videoId

/-- C7: the ids passed to the per-video statistics fetch are exactly the
ids of the first (most recent) at-most-20 items of the uploads playlist:
never more than 20, and fewer than the whole playlist whenever it has
more than 20 uploads. -/
theorem dashboard_video_ids_top20 (uploads : List PlaylistItem) :
    dashboard_video_ids uploads = (uploads.take 20).map PlaylistItem.videoId ∧
    (dashboard_video_ids uploads).length = min 20 uploads.length ∧
    (dashboard_video_ids uploads).length ≤ 20 := by
  refine ⟨rfl, ?_, ?_⟩
  · simp [dashboard_video_ids, playlistItems_list, List.length_take]
  · simp [dashboard_video_ids, playlistItems_list, List.length_take]

/-- Lines 211-220 of `yt_dashboard.py`: `px.line(history_df, x="date", ...)`
plots one marker per data row, in the order the rows appear in
`channel_history.csv` (no sorting is applied to `history_df`). -/
def trendChartDates (history : List DailyRecord) : List String :=
  history.map DailyRecord.date

/-- A log file whose rows are not in ascending date order. -/
def exHistory : List DailyRecord :=
  [⟨"2024-01-02", 2, 2, 2⟩, ⟨"2024-01-01", 1, 1, 1⟩]

/-- Chronological order of `YYYY-MM-DD` date strings: lexicographic order
on the underlying character lists. -/
def dateAscending (dates : List String) : Prop :=
  List.Sorted (fun a b : String => a.data ≤ b.data) dates

/-- C6 counterexample: a log holding rows for 2024-01-01 and 2024-01-02 in
reversed row order.  Both dates are plotted, but the plot order is the row
order `["2024-01-02", "2024-01-01"]`, which is not ascending date order:
the code never sorts `history_df`. -/
theorem trendChartDates_not_sorted :
    "2024-01-01" ∈ trendChartDates exHistory ∧
    "2024-01-02" ∈ trendChartDates exHistory ∧
    trendChartDates exHistory = ["2024-01-02", "2024-01-01"] ∧
    ¬ dateAscending (trendChartDates exHistory) := by
  refine ⟨by decide, by decide, by decide, ?_⟩
  unfold dateAscending
  decide

/-- C6 (amended): the trend view plots every row's point, in the order the
rows appear in the file; in particular both requested dates appear, and
the plot is in ascending date order exactly when the file rows are. -/
theorem trendChartDates_row_order (history : List DailyRecord) (d1 d2 : String)
    (h1 : d1 ∈ history.map DailyRecord.date) (h2 : d2 ∈ history.map DailyRecord.date) :
    d1 ∈ trendChartDates history ∧ d2 ∈ trendChartDates history ∧
    trendChartDates history = history.map DailyRecord.date ∧
    (dateAscending (history.map DailyRecord.date) →
      dateAscending (trendChartDates history)) :=
  ⟨h1, h2, rfl, fun hs => hs⟩

/-- C6 witness: the amended theorem at the two-row log. -/
theorem trendChartDates_row_order_witness :
    "2024-01-01" ∈ trendChartDates exHistory ∧
    "2024-01-02" ∈ trendChartDates exHistory ∧
    trendChartDates exHistory = exHistory.map DailyRecord.date ∧
    (dateAscending (exHistory.map DailyRecord.date) →
      dateAscending (trendChartDates exHistory)) :=
  trendChartDates_row_order exHistory "2024-01-01" "2024-01-02"
    (by decide) (by decide)

/-- `pd.DataFrame(video_stats).sort_values(by="views", ascending=False)`
called without a `kind` argument uses the default `quicksort`, which
pandas documents as not stable (only `mergesort`/`stable` are).  The
library therefore guarantees only that the result is a permutation of the
input rows whose `views` column is non-increasing; the relative order of
rows with equal `views` is unspecified. -/
def pandasSortValuesViewsDesc (input output : List VideoRow) : Prop :=
  input.Perm output ∧ List.Sorted (fun a b : VideoRow => a.views ≥ b.views) output

/-- Lines 246-247 of `yt_dashboard.py`:
`df_videos = pd.DataFrame(video_stats).sort_values(by="views",
ascending=False).head(10)` - any descending-by-views permutation of the
input, truncated to its first 10 rows. -/
def df_videos_sel (input output : List VideoRow) : Prop :=
  ∃ sorted, pandasSortValuesViewsDesc input sorted ∧ output = sorted.take 10

/-- Modelled from the spec: the claimed selection - the 10 records with
the highest `views`, ordered by `views` descending, ties between equal
`views` broken by original input order (a stable sort). -/
def specTop10StableByViews (input : List VideoRow) : List VideoRow :=
  (List.insertionSort (fun a b : VideoRow => a.views ≥ b.views) input).take 10

/-- A row with the given title and view count (likes and comments 0). -/
def viewRow (t : String) (v : Int) : VideoRow := ⟨t, v, 0, 0⟩

/-- Eighteen rows with pairwise distinct view counts 98 down to 81. -/
def restRows : List VideoRow :=
  [viewRow "r02" 98, viewRow "r03" 97, viewRow "r04" 96, viewRow "r05" 95,
   viewRow "r06" 94, viewRow "r07" 93, viewRow "r08" 92, viewRow "r09" 91,
   viewRow "r10" 90, viewRow "r11" 89, viewRow "r12" 88, viewRow "r13" 87,
   viewRow "r14" 86, viewRow "r15" 85, viewRow "r16" 84, viewRow "r17" 83,
   viewRow "r18" 82, viewRow "r19" 81]

/-- Twenty rows whose first two are tied at 100 views, `A` before `B`. -/
def input20 : List VideoRow := viewRow "A" 100 :: viewRow "B" 100 :: restRows

/-- A valid unstable descending sort of `input20`: the tied rows come out
`B` before `A`, against their input order. -/
def sortedBad : List VideoRow := viewRow "B" 100 :: viewRow "A" 100 :: restRows

/-- The corresponding `head(10)` result. -/
def badOut : List VideoRow := sortedBad.take 10

/-- C5 counterexample: on a 20-row input whose first two rows are tied at
100 views, the selection may return the tied rows in reversed input
order, differing from the claimed stable top-10: the default sort kind is
the unstable `quicksort`, so ties are not guaranteed to keep input
order. -/
theorem df_videos_not_stable :
    input20.length = 20 ∧ df_videos_sel input20 badOut ∧
    badOut ≠ specTop10StableByViews input20 := by
  refine ⟨by decide, ⟨sortedBad, ⟨?_, by decide⟩, rfl⟩, by decide⟩
  exact List.Perm.swap (viewRow "B" 100) (viewRow "A" 100) restRows

/-- C5 (amended): on any 20-record input, the selection returns 10 rows,
sorted by `views` descending, whose `views` are exactly the 10 largest
input view counts (with multiplicity, in descending order); the relative
order of rows with equal `views` is unspecified. -/
theorem df_videos_top10 (input output : List VideoRow)
    (hlen : input.length = 20) (hsel : df_videos_sel input output) :
    List.Sorted (fun a b : VideoRow => a.views ≥ b.views) output ∧
    output.map VideoRow.views
      = (List.insertionSort (fun a b : Int => a ≥ b) (input.map VideoRow.views)).take 10 ∧
    output.length = 10 := by
  obtain ⟨sorted, ⟨hperm, hsort⟩, hout⟩ := hsel
  subst hout
  refine ⟨List.Pairwise.sublist (List.take_sublist 10 sorted) hsort, ?_, ?_⟩
  · have hpermv : (input.map VideoRow.views).Perm (sorted.map VideoRow.views) :=
      hperm.map VideoRow.views
    have hsortA : List.Sorted (fun a b : Int => a ≥ b) (sorted.map VideoRow.views) :=
      List.Pairwise.map VideoRow.views (fun a b h => h) hsort
    have hsortB : List.Sorted (fun a b : Int => a ≥ b)
        (List.insertionSort (fun a b : Int => a ≥ b) (input.map VideoRow.views)) :=
      List.sorted_insertionSort (fun a b : Int => a ≥ b) (input.map VideoRow.views)
    have hpermB : (List.insertionSort (fun a b : Int => a ≥ b)
        (input.map VideoRow.views)).Perm (input.map VideoRow.views) :=
      List.perm_insertionSort (fun a b : Int => a ≥ b) (input.map VideoRow.views)
    have hAB : sorted.map VideoRow.views
        = List.insertionSort (fun a b : Int => a ≥ b) (input.map VideoRow.views) :=
      List.eq_of_perm_of_sorted (hpermv.symm.trans hpermB.symm) hsortA hsortB
    rw [List.map_take, hAB]
  · have hslen : sorted.length = 20 := hperm.length_eq.symm.trans hlen
    rw [List.length_take, hslen]
    decide

/-- C5 witness: the amended theorem at the concrete 20-row input and one
of its valid selection results. -/
theorem df_videos_top10_witness :
    List.Sorted (fun a b : VideoRow => a.views ≥ b.views) badOut ∧
    badOut.map VideoRow.views
      = (List.insertionSort (fun a b : Int => a ≥ b) (input20.map VideoRow.views)).take 10 ∧
    badOut.length = 10 :=
  df_videos_top10 input20 badOut (by decide)
    ⟨sortedBad, ⟨List.Perm.swap (viewRow "B" 100) (viewRow "A" 100) restRows, by decide⟩, rfl⟩

/-- The externally visible actions of the top-level script, in program
order: `st.set_page_config` (line 17), the CSS `st.markdown` (line 22),
then - only past the API-key check - the dashboard surface (title, cards,
charts, tables) and the inline `st.error` of the `except` handler. -/
inductive Effect where
  | setPageConfig
  | markdownCss
  | title (s : String)
  | writeText (s : String)
  | subheader (s : String)
  | metricCard (label : String) (value : Int)
  | plotlyChart
  | tableView
  | downloadButton
  | uiError (msg : String)
deriving DecidableEq, Repr

/-- The exception kinds the script can meet during a render cycle. -/
inductive PyError where
  | httpError (msg : String)
  | emptyDataError (msg : String)
  | geminiError (msg : String)
  | unpicklingError (msg : String)
  | valueError (msg : String)
deriving DecidableEq, Repr

/-- Python truthiness of `os.getenv` results: `None` and the empty string
are falsy, every other string is truthy. -/
def pyTruthy : Option String → Bool
  | none => false
  | some s => !s.isEmpty

/-- Whether an effect renders part of the dashboard UI proper (title,
text, section headers, metric cards, charts, tables, download control). -/
def isDashboardUi : Effect → Bool
  | .title _ => true
  | .writeText _ => true
  | .subheader _ => true
  | .metricCard _ _ => true
  | .plotlyChart => true
  | .tableView => true
  | .downloadButton => true
  | _ => false

/-- Lines 183-280 of `yt_dashboard.py`: the `try ... except HttpError`
wrapper around the render cycle.  The body is given as the effects it
emitted before finishing or raising.  An `HttpError` is caught and
surfaced as an inline `st.error`; every other exception propagates. -/
def tryRender (body : List Effect × Option PyError) : List Effect × Option PyError :=
  match body with
  | (tr, some (.httpError m)) => (tr ++ [.uiError ("API Error: " ++ m)], none)
  | (tr, err) => (tr, err)

/-- The fatal startup message of lines 57-59. -/
def missingKeyMsg : String := "❌ No GEMINI_API_KEY found. Please set it in your .env file."

/-- The top-level script: page config and CSS (lines 17-45), then the
`GEMINI_API_KEY` check (lines 57-59) raising `ValueError` when the key is
falsy, then the page header (lines 173-174) and the guarded render cycle
(lines 183-280), whose remaining effects and outcome are the parameter
`body`. -/
def script (geminiKey : Option String) (body : List Effect × Option PyError) :
    List Effect × Option PyError :=
  if pyTruthy geminiKey then
    let r := tryRender body
    ([Effect.setPageConfig, Effect.markdownCss,
      Effect.title "YouTube Analytics Dashboard",
      Effect.writeText "Track your channel performance and get AI-powered content strategy insights."]
      ++ r.1, r.2)
  else
    ([Effect.setPageConfig, Effect.markdownCss], some (.valueError missingKeyMsg))

/-- C8: with no `GEMINI_API_KEY` in the environment the script halts with
a `ValueError` right after the page-config and CSS effects: no dashboard
UI effect (title, cards, charts, tables) is ever emitted, whatever the
render cycle would have done. -/
theorem script_missing_key_fatal (geminiKey : Option String)
    (body : List Effect × Option PyError) (h : geminiKey = none) :
    script geminiKey body
        = ([Effect.setPageConfig, Effect.markdownCss], some (.valueError missingKeyMsg)) ∧
    (script geminiKey body).1.all (fun e => !isDashboardUi e) = true := by
  subst h
  exact ⟨rfl, rfl⟩

/-- C8 witness: the fatal-startup theorem at an arbitrary concrete body. -/
theorem script_missing_key_fatal_witness :
    script none ([Effect.tableView], none)
        = ([Effect.setPageConfig, Effect.markdownCss], some (.valueError missingKeyMsg)) ∧
    (script none ([Effect.tableView], none)).1.all (fun e => !isDashboardUi e) = true :=
  script_missing_key_fatal none ([Effect.tableView], none) rfl

/-- C9: the render cycle catches exactly one failure class.  A raised
`HttpError` is swallowed and surfaced as the inline message
`API Error: ...` appended to the already-emitted effects; any other
raised exception (malformed log, language-model failure, credential
corruption, ...) leaves the trace as is and propagates, terminating the
cycle. -/
theorem tryRender_catches_only_http (tr : List Effect) (e : PyError) :
    (∀ m, e = .httpError m →
      tryRender (tr, some e) = (tr ++ [.uiError ("API Error: " ++ m)], none)) ∧
    ((∀ m, e ≠ .httpError m) → tryRender (tr, some e) = (tr, some e)) := by
  constructor
  · intro m hm
    subst hm
    rfl
  · intro hne
    cases e with
    | httpError m => exact absurd rfl (hne m)
    | emptyDataError m => rfl
    | geminiError m => rfl
    | unpicklingError m => rfl
    | valueError m => rfl

/-- C9 witness: a caught `HttpError` becomes an inline UI error while a
pandas `EmptyDataError` (malformed log) propagates unchanged. -/
theorem tryRender_catches_only_http_witness :
    tryRender ([Effect.title "t"], some (.httpError "quota"))
        = ([Effect.title "t"] ++ [.uiError ("API Error: " ++ "quota")], none) ∧
    tryRender ([], some (.emptyDataError "no columns to parse"))
        = ([], some (.emptyDataError "no columns to parse")) :=
  ⟨(tryRender_catches_only_http [Effect.title "t"] (.httpError "quota")).1 "quota" rfl,
   (tryRender_catches_only_http [] (.emptyDataError "no columns to parse")).2
     (fun m => by simp)⟩
